import Mathlib

/-
Shallow embedding of the Go2 autonomy locomotion controller
(`src/actions/move_go2_autonomy/connector/unitree_sdk_advance.py`,
class `MoveUnitreeSDKAdvanceConnector`).

Modelling conventions:
* Python floats are modelled as rationals (ℚ).  All arithmetic appearing in
  the controller is exact on the inputs considered here (+, -, *, abs,
  comparison, and rounding to two decimals), so the rational model is
  faithful for them.  `math.sqrt` is a C-library primitive outside the
  repository; it enters the model as an explicit function parameter
  `sqrtQ : ℚ → ℚ` of `tick`, constrained pointwise where a theorem needs it.
* Python `round(x, 2)` rounds to the nearest hundredth with ties to even;
  the values reached in the statements below are never exact midpoints,
  where every nearest-rounding convention agrees, so Mathlib `round`
  (nearest, ties up) coincides with it on all values used.
* The provider singletons (`OdomProvider`, `SimplePathsProvider`,
  `UnitreeGo2StateProvider`, `FacePresenceProvider`) are external
  capabilities; each tick / submit consumes one immutable snapshot of them,
  modelled as plain structures passed as arguments.
* Actuator traffic (`SportClient.Move`, `SportClient.BalanceStand`) is
  modelled as the list of commands a call emits, in order.
* Each control-flow exit of `tick()` is labelled by a `TickOutcome`
  mirroring the distinct log message the code prints on that path.
-/

namespace Go2Advance

/-- Rounding to two decimal places, modelling Python `round(x, 2)` on the
midpoint-free values used throughout (see the file header). -/
def round2 (q : ℚ) : ℚ := (round (q * 100) : ℚ) / 100

/-- Robot posture as reported by the odom provider (`RobotState` enum:
STANDING / SITTING). -/
inductive RobotState where
  | standing
  | sitting
deriving DecidableEq, Repr

/-- Modelled from the spec: `MoveCommand` (the dataclass lives in
`actions.base`, which is not part of the provided sources).  Fields and the
default advance speed 0.5 follow the spec data model and the keyword
arguments used at every construction site in the connector. -/
structure MoveCommand where
  dx : ℚ
  yaw : ℚ
  start_x : ℚ
  start_y : ℚ
  turn_complete : Bool
  speed : ℚ := 1/2
deriving DecidableEq, Repr

/-- One snapshot of `OdomProvider.position`. -/
structure OdomSnapshot where
  odom_x : ℚ
  odom_y : ℚ
  odom_yaw_m180_p180 : ℚ
  body_attitude : RobotState
  moving : Bool
deriving DecidableEq, Repr

/-- One snapshot of `SimplePathsProvider`: lists of viable path ids per
direction, a retreat flag, and the path-id → steering-angle table. -/
structure PathsSnapshot where
  advance : List ℕ
  retreat : Bool
  turn_left : List ℕ
  turn_right : List ℕ
  path_angles : ℕ → ℚ

/-- One snapshot of `UnitreeGo2StateProvider`.  `state_code = 0` models the
Python-falsy case (no state signal); `state_jointLock` models
`state == "jointLock"`. -/
structure Go2State where
  state_code : ℕ
  state_jointLock : Bool
  action_progress : ℤ
deriving DecidableEq, Repr

/-- A command sent to the sport client. -/
inductive ActuatorCmd where
  | move (vx vy vturn : ℚ)
  | balanceStand
deriving DecidableEq, Repr

/-- The mutable controller fields of `MoveUnitreeSDKAdvanceConnector` that
the claims concern.  `has_sport_client` records whether `self.sport_client`
is non-None; `mode_guard` records `self.mode == "guard"`. -/
structure ControllerState where
  pending_movements : List MoveCommand
  movement_attempts : ℕ
  gap_previous : ℚ
  ai_control_enabled : Bool
  has_sport_client : Bool
  mode_guard : Bool
deriving DecidableEq, Repr

/-- Constant `self.move_speed`. -/
def move_speed : ℚ := 1/2

/-- Constant `self.turn_speed`. -/
def turn_speed : ℚ := 4/5

/-- Constant `self.angle_tolerance` (degrees). -/
def angle_tolerance : ℚ := 5

/-- Constant `self.distance_tolerance` (meters). -/
def distance_tolerance : ℚ := 1/20

/-- Constant `self.movement_attempt_limit`. -/
def movement_attempt_limit : ℕ := 15

/-- Controller state as `__init__` leaves it (empty queue, zero counters,
AI control enabled). -/
def initState (sc guard : Bool) : ControllerState :=
  { pending_movements := []
    movement_attempts := 0
    gap_previous := 0
    ai_control_enabled := true
    has_sport_client := sc
    mode_guard := guard }

/-- Model of `_normalize_angle`: a single ±360 correction. -/
def normalize_angle (angle : ℚ) : ℚ :=
  if angle < -180 then angle + 360
  else if angle > 180 then angle - 360
  else angle

/-- Model of `_calculate_angle_gap`: difference, one ±360 correction, rounded to two
decimals. -/
def calculate_angle_gap (current target : ℚ) : ℚ :=
  let gap := current - target
  let gap1 := if gap > 180 then gap - 360 else if gap < -180 then gap + 360 else gap
  round2 gap1

/-- Model of `_move_robot`: emits nothing without a sport client, emits nothing when
the body attitude is not STANDING, prepends a `BalanceStand` when the state
provider reports jointLock, then emits the `Move`. -/
def move_robot (sc : Bool) (odom : OdomSnapshot) (go2 : Go2State)
    (vx vy vturn : ℚ) : List ActuatorCmd :=
  if sc = false then []
  else if odom.body_attitude ≠ RobotState.standing then []
  else
    (if go2.state_jointLock then [ActuatorCmd.balanceStand] else [])
      ++ [ActuatorCmd.move vx vy vturn]

/-- Model of `clean_abort`: reset the attempt counter and pop the queue head (a no-op
pop when the queue is empty). -/
def clean_abort (st : ControllerState) : ControllerState :=
  { st with
    movement_attempts := 0
    pending_movements := st.pending_movements.tail }

/-- Minimum of a list of path ids; only applied to nonempty lists (Python
`min`). -/
def listMin (l : List ℕ) : ℕ := l.foldr min (l.headD 0)

/-- Maximum of a list of path ids; only applied to nonempty lists (Python
`max`). -/
def listMax (l : List ℕ) : ℕ := l.foldr max 0

/-- Model of `_execute_turn`: `none` models the `False` (blocked) return; `some cmds`
models the `True` return together with the actuator commands emitted. -/
def execute_turn (sc : Bool) (odom : OdomSnapshot) (paths : PathsSnapshot)
    (go2 : Go2State) (gap : ℚ) : Option (List ActuatorCmd) :=
  if gap > 0 then
    if paths.turn_left = [] then none
    else
      some (move_robot sc odom go2
        ((listMin paths.turn_left : ℚ) * (3/20)) 0 turn_speed)
  else
    if paths.turn_right = [] then none
    else
      some (move_robot sc odom go2
        ((8 - (listMax paths.turn_right : ℚ)) * (3/20)) 0 (-turn_speed))

/-- Label for the control-flow exit a `tick()` call takes; each constructor
corresponds to one distinct log line of the source. -/
inductive TickOutcome where
  | waitingOdom
  | notStanding
  | idle
  | timeoutAbort
  | turnBlockAbort
  | turningCoarse
  | turningFine
  | turnCompleted
  | noMovement
  | advanceBlockAbort
  | retreatBlockAbort
  | moving
  | completed
deriving DecidableEq, Repr

/-- Squared Euclidean distance; `math.sqrt` of this value is the code's
`distance_traveled`. -/
def dist2 (x y sx sy : ℚ) : ℚ := (x - sx) ^ 2 + (y - sy) ^ 2

/-- Phase 1 of `tick()` (lines 255-284): turning toward the target yaw. -/
def tickTurnPhase (odom : OdomSnapshot) (paths : PathsSnapshot)
    (go2 : Go2State) (st : ControllerState) (current : MoveCommand) :
    ControllerState × List ActuatorCmd × TickOutcome :=
  let gap := calculate_angle_gap (-odom.odom_yaw_m180_p180) current.yaw
  let st1 := { st with gap_previous := gap }
  if |gap| > 10 then
    let st2 := { st1 with movement_attempts := st1.movement_attempts + 1 }
    match execute_turn st.has_sport_client odom paths go2 gap with
    | none => (clean_abort st2, [], TickOutcome.turnBlockAbort)
    | some cmds => (st2, cmds, TickOutcome.turningCoarse)
  else if |gap| > angle_tolerance ∧ |gap| ≤ 10 then
    let st2 := { st1 with movement_attempts := st1.movement_attempts + 1 }
    if gap > 0 then
      (st2, move_robot st.has_sport_client odom go2 0 0 (1/5),
        TickOutcome.turningFine)
    else if gap < 0 then
      (st2, move_robot st.has_sport_client odom go2 0 0 (-(1/5)),
        TickOutcome.turningFine)
    else (st2, [], TickOutcome.turningFine)
  else
    ({ st1 with
        pending_movements :=
          { current with turn_complete := true } :: st1.pending_movements.tail
        gap_previous := 0 }, [], TickOutcome.turnCompleted)

/-- Phase 2 of `tick()` (lines 286-336): advance/retreat toward the target
distance.  `sqrtQ` stands for `math.sqrt`. -/
def tickMovePhase (sqrtQ : ℚ → ℚ) (odom : OdomSnapshot)
    (paths : PathsSnapshot) (go2 : Go2State) (st : ControllerState)
    (current : MoveCommand) :
    ControllerState × List ActuatorCmd × TickOutcome :=
  if current.dx = 0 then (clean_abort st, [], TickOutcome.noMovement)
  else
    let distance_traveled :=
      sqrtQ (dist2 odom.odom_x odom.odom_y current.start_x current.start_y)
    let gap := round2 |current.dx - distance_traveled|
    let st1 := { st with gap_previous := gap }
    if current.dx > 0 ∧ ¬ (4 ∈ paths.advance) then
      (clean_abort st1, [], TickOutcome.advanceBlockAbort)
    else if current.dx < 0 ∧ paths.retreat = false then
      (clean_abort st1, [], TickOutcome.retreatBlockAbort)
    else
      let fb : ℚ := if current.dx > 0 then 1 else -1
      if gap > distance_tolerance then
        let st2 := { st1 with movement_attempts := st1.movement_attempts + 1 }
        if distance_traveled < |current.dx| then
          (st2,
            move_robot st.has_sport_client odom go2 (fb * current.speed) 0 0,
            TickOutcome.moving)
        else if distance_traveled > |current.dx| then
          (st2,
            move_robot st.has_sport_client odom go2 (-fb * (1/5)) 0 0,
            TickOutcome.moving)
        else (st2, [], TickOutcome.moving)
      else (clean_abort st1, [], TickOutcome.completed)

/-- The queue-draining part of `tick()` once odom data is valid and the dog
is standing.  The `headD` default is never consulted: it is guarded by the
emptiness test. -/
def tickWithGoodData (sqrtQ : ℚ → ℚ) (odom : OdomSnapshot)
    (paths : PathsSnapshot) (go2 : Go2State) (st : ControllerState) :
    ControllerState × List ActuatorCmd × TickOutcome :=
  if st.pending_movements = [] then (st, [], TickOutcome.idle)
  else
    let current := st.pending_movements.headD
      { dx := 0, yaw := 0, start_x := 0, start_y := 0, turn_complete := false }
    if st.movement_attempts > movement_attempt_limit then
      (clean_abort st, [], TickOutcome.timeoutAbort)
    else if current.turn_complete = false then
      tickTurnPhase odom paths go2 st current
    else
      tickMovePhase sqrtQ odom paths go2 st current

/-- Model of `tick()`: the guard ladder (odom present, non-sentinel x, standing) then
the two-phase state machine. -/
def tick (sqrtQ : ℚ → ℚ) (odom? : Option OdomSnapshot)
    (paths : PathsSnapshot) (go2 : Go2State) (st : ControllerState) :
    ControllerState × List ActuatorCmd × TickOutcome :=
  match odom? with
  | none => (st, [], TickOutcome.waitingOdom)
  | some odom =>
    if odom.odom_x = 0 then (st, [], TickOutcome.waitingOdom)
    else if odom.body_attitude ≠ RobotState.standing then
      (st, [], TickOutcome.notStanding)
    else tickWithGoodData sqrtQ odom paths go2 st

/-- Everything `connect()` reads from the providers, plus the index the
`random.choice` call resolves to (taken modulo the list length). -/
structure SubmitEnv where
  unknown_faces : ℕ
  go2 : Go2State
  odom : OdomSnapshot
  paths : PathsSnapshot
  choice : ℕ

/-- Model of `random.choice(l)` on a nonempty list, resolved by the environment's
choice index. -/
def pickPath (l : List ℕ) (choice : ℕ) : ℕ := l.getD (choice % l.length) 0

/-- Model of `_process_turn_left`: `none` models the blocked early return. -/
def process_turn_left (env : SubmitEnv) : Option MoveCommand :=
  if env.paths.turn_left = [] then none
  else
    let path := pickPath env.paths.turn_left env.choice
    let path_angle := env.paths.path_angles path
    let target_yaw :=
      normalize_angle (-env.odom.odom_yaw_m180_p180 + path_angle)
    some
      { dx := 1/2
        yaw := round2 target_yaw
        start_x := round2 env.odom.odom_x
        start_y := round2 env.odom.odom_y
        turn_complete := false }

/-- Model of `_process_turn_right`. -/
def process_turn_right (env : SubmitEnv) : Option MoveCommand :=
  if env.paths.turn_right = [] then none
  else
    let path := pickPath env.paths.turn_right env.choice
    let path_angle := env.paths.path_angles path
    let target_yaw :=
      normalize_angle (-env.odom.odom_yaw_m180_p180 + path_angle)
    some
      { dx := 1/2
        yaw := round2 target_yaw
        start_x := round2 env.odom.odom_x
        start_y := round2 env.odom.odom_y
        turn_complete := false }

/-- Model of `_process_move_forward`: yaw is not rounded here, and `turn_complete` is
pre-set when the chosen path angle is exactly zero. -/
def process_move_forward (env : SubmitEnv) : Option MoveCommand :=
  if env.paths.advance = [] then none
  else
    let path := pickPath env.paths.advance env.choice
    let path_angle := env.paths.path_angles path
    let target_yaw :=
      normalize_angle (-env.odom.odom_yaw_m180_p180 + path_angle)
    some
      { dx := 1/2
        yaw := target_yaw
        start_x := round2 env.odom.odom_x
        start_y := round2 env.odom.odom_y
        turn_complete := if path_angle = 0 then true else false }

/-- Model of `_process_move_back`: straight back, no turn, reduced speed. -/
def process_move_back (env : SubmitEnv) : Option MoveCommand :=
  if env.paths.retreat = false then none
  else
    some
      { dx := -(1/2)
        yaw := 0
        start_x := round2 env.odom.odom_x
        start_y := round2 env.odom.odom_y
        turn_complete := true
        speed := 1/5 }

/-- The `movement_map` dispatch of `connect()`: the command a recognized
builder produces, `none` for "stand still" (log-only) and for unknown
actions. -/
def connectDispatch (action : String) (env : SubmitEnv) : Option MoveCommand :=
  if action = "turn left" then process_turn_left env
  else if action = "turn right" then process_turn_right env
  else if action = "move forwards" then process_move_forward env
  else if action = "move back" then process_move_back env
  else none

/-- Model of `connect()`: the guard ladder, the jointLock (state code 1002) recovery
issuance, and the builder dispatch.  Returns the new controller state and
the actuator commands emitted during the call. -/
def connect (action : String) (env : SubmitEnv) (st : ControllerState) :
    ControllerState × List ActuatorCmd :=
  if st.mode_guard = true ∧ env.unknown_faces > 0 then (st, [])
  else if st.ai_control_enabled = false then (st, [])
  else
    let recov :=
      if env.go2.state_code = 1002 ∧ st.has_sport_client = true then
        [ActuatorCmd.balanceStand]
      else []
    if env.go2.action_progress ≠ 0 then (st, recov)
    else if env.go2.state_code = 0 ∧ env.odom.moving = true then (st, recov)
    else if st.pending_movements.length > 0 then (st, recov)
    else if env.odom.odom_x = 0 then (st, recov)
    else
      match connectDispatch action env with
      | some cmd =>
        ({ st with pending_movements := st.pending_movements ++ [cmd] }, recov)
      | none => (st, recov)

/-- Transcription of the per-tick advisory checks of the code: in the turn
phase a coarse gap consults `turn_left`/`turn_right` emptiness inside
`_execute_turn` (lines 488-499); in the move phase a positive `dx` requires
path id 4 in `advance` and a negative `dx` requires the `retreat` flag
(lines 308-320). -/
def requiredDirBlocked (odom : OdomSnapshot) (paths : PathsSnapshot)
    (cmd : MoveCommand) : Prop :=
  if cmd.turn_complete = true then
    (0 < cmd.dx ∧ ¬ (4 ∈ paths.advance)) ∨ (cmd.dx < 0 ∧ paths.retreat = false)
  else
    10 < |calculate_angle_gap (-odom.odom_yaw_m180_p180) cmd.yaw|
    ∧ ((0 < calculate_angle_gap (-odom.odom_yaw_m180_p180) cmd.yaw
          ∧ paths.turn_left = [])
       ∨ (¬ 0 < calculate_angle_gap (-odom.odom_yaw_m180_p180) cmd.yaw
          ∧ paths.turn_right = []))

/-- Controller states reachable from a fresh connector by any finite
interleaving of `connect` (submit), `tick`, and the Zenoh AI-status toggle,
under arbitrary provider snapshots. -/
inductive Reachable : ControllerState → Prop where
  | init (sc guard : Bool) : Reachable (initState sc guard)
  | submit (action : String) (env : SubmitEnv) (st : ControllerState) :
      Reachable st → Reachable (connect action env st).1
  | step (sqrtQ : ℚ → ℚ) (odom? : Option OdomSnapshot) (paths : PathsSnapshot)
      (go2 : Go2State) (st : ControllerState) :
      Reachable st → Reachable (tick sqrtQ odom? paths go2 st).1
  | setAI (b : Bool) (st : ControllerState) :
      Reachable st → Reachable { st with ai_control_enabled := b }

/-- A standing, non-moving odom snapshot away from the sentinel origin. -/
def stdOdom : OdomSnapshot :=
  { odom_x := 2, odom_y := 3, odom_yaw_m180_p180 := 0,
    body_attitude := RobotState.standing, moving := false }

/-- A sitting odom snapshot. -/
def sitOdom : OdomSnapshot :=
  { odom_x := 2, odom_y := 3, odom_yaw_m180_p180 := 0,
    body_attitude := RobotState.sitting, moving := false }

/-- An odom snapshot at the sentinel position x = 0. -/
def zeroOdom : OdomSnapshot :=
  { odom_x := 0, odom_y := 3, odom_yaw_m180_p180 := 20,
    body_attitude := RobotState.standing, moving := false }

/-- A quiescent state snapshot (no state signal, no action in progress). -/
def idleGo2 : Go2State :=
  { state_code := 0, state_jointLock := false, action_progress := 0 }

/-- A jointLock state snapshot with state code 1002. -/
def jlGo2 : Go2State :=
  { state_code := 1002, state_jointLock := true, action_progress := 0 }

/-- An advisory snapshot with every direction open (straight-ahead path 4
among the advance options). -/
def openPaths : PathsSnapshot :=
  { advance := [4], retreat := true, turn_left := [3], turn_right := [5],
    path_angles := fun _ => 0 }

/-- An advisory snapshot with every direction blocked. -/
def blockedPaths : PathsSnapshot :=
  { advance := [], retreat := false, turn_left := [], turn_right := [],
    path_angles := fun _ => 0 }

/-- An advisory snapshot offering a viable advance path (id 3) that is not
the straight-ahead path 4. -/
def adv3Paths : PathsSnapshot :=
  { advance := [3], retreat := true, turn_left := [], turn_right := [],
    path_angles := fun _ => 0 }

/-- A square-root model that is zero everywhere; used where the tick under
scrutiny never reads a nonzero distance. -/
def zeroSqrt : ℚ → ℚ := fun _ => 0

/-- A submit environment whose guards all pass (used with `initState`). -/
def passEnv : SubmitEnv :=
  { unknown_faces := 0, go2 := idleGo2, odom := stdOdom, paths := openPaths,
    choice := 0 }

/-- Submit environment for the jointLock scenario: state code 1002, no
action in progress, retreat open. -/
def c3Env : SubmitEnv :=
  { unknown_faces := 0, go2 := jlGo2, odom := stdOdom, paths := openPaths,
    choice := 0 }

/-- The retreat command `_process_move_back` builds from `stdOdom`. -/
def backCmd : MoveCommand :=
  { dx := -(1/2), yaw := 0, start_x := 2, start_y := 3,
    turn_complete := true, speed := 1/5 }

/-- In-flight retreat scenario for the phase-2 gap computation: the robot
has moved 0.45 m from the enqueue point (2, 3). -/
def c1Odom : OdomSnapshot :=
  { odom_x := 2, odom_y := 3 + 9/20, odom_yaw_m180_p180 := 0,
    body_attitude := RobotState.standing, moving := false }

/-- Square root pinned at the single squared distance the retreat scenario
reads: (9/20)² = 81/400. -/
def c1Sqrt : ℚ → ℚ := fun q => if q = 81/400 then 9/20 else 0

/-- Controller state holding the in-flight retreat command. -/
def c1St : ControllerState :=
  { initState true false with pending_movements := [backCmd] }

/-- An advance command in its move phase, enqueued at (2, 3). -/
def advCmd : MoveCommand :=
  { dx := 1/2, yaw := 0, start_x := 2, start_y := 3, turn_complete := true }

/-- Controller state holding the in-flight advance command. -/
def c4St : ControllerState :=
  { initState true false with pending_movements := [advCmd] }

/-- Pose for the convergence-timeout scenario: 0.4 m from the enqueue point
(2, 3), so the distance stays at 0.4 forever. -/
def c5Odom : OdomSnapshot :=
  { odom_x := 2 + 2/5, odom_y := 3, odom_yaw_m180_p180 := 0,
    body_attitude := RobotState.standing, moving := false }

/-- Square root pinned at the single squared distance the timeout scenario
reads: (2/5)² = 4/25. -/
def c5Sqrt : ℚ → ℚ := fun q => if q = 4/25 then 2/5 else 0

/-- Controller state of the timeout scenario after `n` attempts, with the
given `gap_previous`. -/
def c5State (n : ℕ) (g : ℚ) : ControllerState :=
  { pending_movements := [advCmd], movement_attempts := n, gap_previous := g,
    ai_control_enabled := true, has_sport_client := true, mode_guard := false }

/-- One tick of the timeout scenario. -/
def c5Step (st : ControllerState) : ControllerState :=
  (tick c5Sqrt (some c5Odom) openPaths idleGo2 st).1

/-- A turn command requiring a −90° (rightward) coarse turn from yaw 0. -/
def turnCmd : MoveCommand :=
  { dx := 1/2, yaw := 90, start_x := 2, start_y := 3, turn_complete := false }

/-- Controller state holding the in-flight turn command. -/
def c6St : ControllerState :=
  { initState true false with pending_movements := [turnCmd] }

theorem round2_eval (q : ℚ) : round2 q = (⌊q * 100 + 1/2⌋ : ℚ) / 100 := by
  rw [round2, round_eq]

theorem round2_half_le {q : ℚ} (h : 1/2 ≤ q) : 1/2 ≤ round2 q := by
  rw [round2_eval]
  have h1 : (50 : ℤ) ≤ ⌊q * 100 + 1/2⌋ := by
    apply Int.le_floor.mpr
    push_cast
    linarith
  have h2 : ((50 : ℤ) : ℚ) ≤ (⌊q * 100 + 1/2⌋ : ℚ) := by exact_mod_cast h1
  push_cast at h2 ⊢
  linarith

/-- C8 counterexample: 541 is finite, yet `normalize_angle 541 = 181` lies
outside (−180, 180] and a second application changes the value, so neither
the range claim nor idempotence holds for every finite input; moreover
`normalize_angle (−180) = −180` already escapes the half-open interval. -/
theorem c8_counterexample :
    normalize_angle 541 = 181
    ∧ ¬ (-180 < normalize_angle 541 ∧ normalize_angle 541 ≤ 180)
    ∧ normalize_angle (normalize_angle 541) = -179
    ∧ normalize_angle (normalize_angle 541) ≠ normalize_angle 541
    ∧ normalize_angle (-180) = -180 := by
  norm_num [normalize_angle]

/-- C8 (amended): on the documented input range — here the closed interval
[−540, 540] — `normalize_angle` lands in the closed interval [−180, 180]
(−180 is attained at −180 itself, so the interval cannot be half-open) and
is idempotent. -/
theorem c8_normalize_angle_range_idem (x : ℚ) (h1 : -540 ≤ x)
    (h2 : x ≤ 540) :
    -180 ≤ normalize_angle x ∧ normalize_angle x ≤ 180
    ∧ normalize_angle (normalize_angle x) = normalize_angle x := by
  unfold normalize_angle
  split_ifs <;>
    first
      | (refine ⟨by linarith, by linarith, rfl⟩)
      | (exact absurd rfl (by linarith))
      | (refine ⟨by linarith, by linarith, by linarith⟩)

/-- C8 witness: the amended statement applied at x = 190. -/
theorem c8_witness :
    -540 ≤ (190 : ℚ)
    ∧ ((190 : ℚ) ≤ 540)
    ∧ (-180 ≤ normalize_angle 190 ∧ normalize_angle 190 ≤ 180
        ∧ normalize_angle (normalize_angle 190) = normalize_angle 190) :=
  ⟨by norm_num, by norm_num,
    c8_normalize_angle_range_idem 190 (by norm_num) (by norm_num)⟩

/-- C9: when the pose source reports the sentinel position x = 0, `tick`
returns with the controller state unchanged (queue, attempt counter and all
command flags included) and emits no actuator command, whatever is queued. -/
theorem c9_sentinel_tick_noop (sqrtQ : ℚ → ℚ) (odom : OdomSnapshot)
    (paths : PathsSnapshot) (go2 : Go2State) (st : ControllerState)
    (hx : odom.odom_x = 0) :
    tick sqrtQ (some odom) paths go2 st = (st, [], TickOutcome.waitingOdom) := by
  simp [tick, hx]

/-- C9 witness: the sentinel no-op at a concrete sentinel snapshot with a
command queued. -/
theorem c9_witness :
    zeroOdom.odom_x = 0
    ∧ tick zeroSqrt (some zeroOdom) openPaths idleGo2 c4St
        = (c4St, [], TickOutcome.waitingOdom) :=
  ⟨rfl, c9_sentinel_tick_noop zeroSqrt zeroOdom openPaths idleGo2 c4St rfl⟩

/-- C2 counterexample: with a sitting pose, `_move_robot` emits nothing at
all — the velocity command is dropped and no stand-recovery command is
issued in its place. -/
theorem c2_counterexample :
    move_robot true sitOdom idleGo2 (1/2) 0 0 = []
    ∧ ¬ ActuatorCmd.balanceStand ∈ move_robot true sitOdom idleGo2 (1/2) 0 0 := by
  constructor
  · simp [move_robot, sitOdom]
  · simp [move_robot, sitOdom]

/-- C2 (amended): when the pose source reports a non-standing posture,
`_move_robot` suppresses the velocity command and issues nothing in its
place; a `BalanceStand` recovery is issued — in addition to, not instead
of, the `Move` — exactly when the robot is standing, the sport client
exists and the state provider reports jointLock. -/
theorem c2_move_robot_not_standing (sc : Bool) (odom : OdomSnapshot)
    (go2 : Go2State) (vx vy vturn : ℚ) :
    (odom.body_attitude ≠ RobotState.standing →
      move_robot sc odom go2 vx vy vturn = [])
    ∧ (sc = true → odom.body_attitude = RobotState.standing →
        go2.state_jointLock = true →
        move_robot sc odom go2 vx vy vturn
          = [ActuatorCmd.balanceStand, ActuatorCmd.move vx vy vturn]) := by
  constructor
  · intro h
    unfold move_robot
    split_ifs <;> simp_all
  · intro h1 h2 h3
    unfold move_robot
    split_ifs <;> simp_all

/-- C2 witness: the amended statement applied to a sitting snapshot and to
a standing jointLock snapshot. -/
theorem c2_witness :
    move_robot true sitOdom jlGo2 (3/10) 0 0 = []
    ∧ move_robot true stdOdom jlGo2 (3/10) 0 0
        = [ActuatorCmd.balanceStand, ActuatorCmd.move (3/10) 0 0] :=
  ⟨(c2_move_robot_not_standing true sitOdom jlGo2 (3/10) 0 0).1
      (by simp [sitOdom]),
    (c2_move_robot_not_standing true stdOdom jlGo2 (3/10) 0 0).2
      rfl rfl rfl⟩

/-- C10: an action string outside the five recognized intents falls through
the `movement_map` dispatch to the logged unknown-command branch: the
controller state (queue included) is unchanged and no velocity command is
issued by the call. -/
theorem c10_unknown_action_noop (action : String) (env : SubmitEnv)
    (st : ControllerState)
    (h1 : ¬ (st.mode_guard = true ∧ env.unknown_faces > 0))
    (h2 : st.ai_control_enabled = true)
    (h3 : env.go2.action_progress = 0)
    (h4 : env.go2.state_code = 0 → env.odom.moving = false)
    (h5 : st.pending_movements = [])
    (h6 : env.odom.odom_x ≠ 0)
    (h7 : ¬ action ∈ (["turn left", "turn right", "move forwards",
        "move back", "stand still"] : List String)) :
    (connect action env st).1 = st
    ∧ ∀ vx vy vturn : ℚ,
        ¬ ActuatorCmd.move vx vy vturn ∈ (connect action env st).2 := by
  simp only [List.mem_cons, List.mem_singleton, not_or] at h7
  have hd : connectDispatch action env = none := by
    simp [connectDispatch, h7.1, h7.2.1, h7.2.2.1, h7.2.2.2.1]
  unfold connect
  split_ifs <;> simp [hd]

/-- C10 witness: the unknown action "jump" is a no-op on a fresh controller
with all guards passing. -/
theorem c10_witness :
    (connect "jump" passEnv (initState true false)).1 = initState true false
    ∧ ¬ ActuatorCmd.move 1 0 0
          ∈ (connect "jump" passEnv (initState true false)).2 :=
  ⟨(c10_unknown_action_noop "jump" passEnv (initState true false)
      (by simp [initState]) rfl rfl (fun _ => rfl) rfl
      (by norm_num [passEnv, stdOdom]) (by simp [passEnv])).1,
    (c10_unknown_action_noop "jump" passEnv (initState true false)
      (by simp [initState]) rfl rfl (fun _ => rfl) rfl
      (by norm_num [passEnv, stdOdom]) (by simp [passEnv])).2 1 0 0⟩

/-- C3 counterexample: a "move back" submit under state code 1002 (with all
other guards passing) issues the BalanceStand recovery and still enqueues a
MoveCommand — the intent is not rejected. -/
theorem c3_counterexample :
    (connect "move back" c3Env (initState true false)).1.pending_movements
        = [backCmd]
    ∧ (connect "move back" c3Env (initState true false)).2
        = [ActuatorCmd.balanceStand] := by
  constructor <;>
    simp [connect, connectDispatch, process_move_back, c3Env, jlGo2,
      stdOdom, openPaths, initState, backCmd, round2_eval] <;>
    norm_num

/-- C3 (amended): a 1002 (jointLock) state code makes `connect` issue an
immediate BalanceStand recovery through the sport client, but it does not
by itself reject the intent: the remaining guards still run, and when they
pass (here for a retreat intent) a MoveCommand is enqueued by the same
call. -/
theorem c3_jointlock_recovery_without_reject (action : String)
    (env : SubmitEnv) (st : ControllerState)
    (h1 : ¬ (st.mode_guard = true ∧ env.unknown_faces > 0))
    (h2 : st.ai_control_enabled = true)
    (hsc : st.has_sport_client = true)
    (hcode : env.go2.state_code = 1002) :
    ActuatorCmd.balanceStand ∈ (connect action env st).2
    ∧ (env.go2.action_progress = 0 → st.pending_movements = [] →
        env.odom.odom_x ≠ 0 → env.paths.retreat = true →
        action = "move back" →
        (connect action env st).1.pending_movements.length = 1) := by
  constructor
  · simp only [connect]
    split_ifs <;> try simp_all [hcode, hsc]
    all_goals cases connectDispatch action env <;> simp_all
  · intro hp hq hx hr ha
    subst ha
    simp only [connect]
    split_ifs <;>
      simp_all [connectDispatch, process_move_back, hcode, hq]

/-- C3 witness: the amended statement applied to the concrete jointLock
submit environment. -/
theorem c3_witness :
    ActuatorCmd.balanceStand ∈ (connect "move back" c3Env (initState true false)).2
    ∧ (connect "move back" c3Env (initState true false)).1.pending_movements.length = 1 := by
  have h := c3_jointlock_recovery_without_reject "move back" c3Env
    (initState true false) (by simp [initState]) rfl rfl rfl
  exact ⟨h.1, h.2 rfl rfl (by norm_num [c3Env, stdOdom]) rfl rfl⟩

theorem connect_pending_le (action : String) (env : SubmitEnv)
    (st : ControllerState) (h : st.pending_movements.length ≤ 1) :
    (connect action env st).1.pending_movements.length ≤ 1 := by
  simp only [connect]
  split_ifs <;> try simpa
  all_goals rcases hd : connectDispatch action env with _ | cmd <;> simp_all

theorem clean_abort_pending_le (st : ControllerState) :
    (clean_abort st).pending_movements.length
      ≤ st.pending_movements.length := by
  simp [clean_abort]

theorem tickTurnPhase_pending_le (odom : OdomSnapshot)
    (paths : PathsSnapshot) (go2 : Go2State) (st : ControllerState)
    (current : MoveCommand) (h : st.pending_movements ≠ []) :
    (tickTurnPhase odom paths go2 st current).1.pending_movements.length
      ≤ st.pending_movements.length := by
  rcases hp : st.pending_movements with _ | ⟨a, l⟩
  · exact absurd hp h
  · simp only [tickTurnPhase]
    split_ifs <;> (try split) <;> simp [clean_abort, hp]

theorem tickMovePhase_pending_le (sqrtQ : ℚ → ℚ) (odom : OdomSnapshot)
    (paths : PathsSnapshot) (go2 : Go2State) (st : ControllerState)
    (current : MoveCommand) :
    (tickMovePhase sqrtQ odom paths go2 st current).1.pending_movements.length
      ≤ st.pending_movements.length := by
  simp only [tickMovePhase]
  split_ifs <;> simp [clean_abort]

theorem tick_pending_le (sqrtQ : ℚ → ℚ) (odom? : Option OdomSnapshot)
    (paths : PathsSnapshot) (go2 : Go2State) (st : ControllerState) :
    (tick sqrtQ odom? paths go2 st).1.pending_movements.length
      ≤ st.pending_movements.length := by
  cases odom? with
  | none => simp [tick]
  | some odom =>
    simp only [tick]
    split_ifs <;> try simp
    simp only [tickWithGoodData]
    split_ifs with he hl ht <;> try simp
    · exact clean_abort_pending_le st
    · exact tickTurnPhase_pending_le odom paths go2 st _ he
    · exact tickMovePhase_pending_le sqrtQ odom paths go2 st _

/-- C7: every controller state reachable from a fresh connector by any
finite sequence of submits, ticks and AI toggles holds at most one
MoveCommand in the pending queue: submit enqueues only into an empty queue
and tick only removes or rewrites in place. -/
theorem c7_queue_at_most_one (st : ControllerState) (h : Reachable st) :
    st.pending_movements.length ≤ 1 := by
  induction h with
  | init sc guard => simp [initState]
  | submit action env st _ ih => exact connect_pending_le action env st ih
  | step sqrtQ odom? paths go2 st _ ih =>
      exact le_trans (tick_pending_le sqrtQ odom? paths go2 st) ih
  | setAI b st _ ih => simpa using ih

/-- C7 witness: the invariant applied to the reachable fresh state. -/
theorem c7_witness :
    Reachable (initState true false)
    ∧ (initState true false).pending_movements.length ≤ 1 :=
  ⟨Reachable.init true false,
    c7_queue_at_most_one (initState true false) (Reachable.init true false)⟩

theorem tick_to_good (sqrtQ : ℚ → ℚ) (odom : OdomSnapshot)
    (paths : PathsSnapshot) (go2 : Go2State) (st : ControllerState)
    (hx : odom.odom_x ≠ 0) (hs : odom.body_attitude = RobotState.standing) :
    tick sqrtQ (some odom) paths go2 st
      = tickWithGoodData sqrtQ odom paths go2 st := by
  simp [tick, hx, hs]

theorem tickWithGoodData_cons (sqrtQ : ℚ → ℚ) (odom : OdomSnapshot)
    (paths : PathsSnapshot) (go2 : Go2State) (st : ControllerState)
    (current : MoveCommand) (rest : List MoveCommand)
    (hq : st.pending_movements = current :: rest)
    (ha : st.movement_attempts ≤ movement_attempt_limit) :
    tickWithGoodData sqrtQ odom paths go2 st
      = if current.turn_complete = false then
          tickTurnPhase odom paths go2 st current
        else tickMovePhase sqrtQ odom paths go2 st current := by
  simp [tickWithGoodData, hq, Nat.not_lt.mpr ha]

theorem tickWithGoodData_timeout (sqrtQ : ℚ → ℚ) (odom : OdomSnapshot)
    (paths : PathsSnapshot) (go2 : Go2State) (st : ControllerState)
    (hne : st.pending_movements ≠ [])
    (ha : movement_attempt_limit < st.movement_attempts) :
    tickWithGoodData sqrtQ odom paths go2 st
      = (clean_abort st, [], TickOutcome.timeoutAbort) := by
  simp [tickWithGoodData, hne, ha]

theorem execute_turn_eq_none_iff (sc : Bool) (odom : OdomSnapshot)
    (paths : PathsSnapshot) (go2 : Go2State) (gap : ℚ) :
    execute_turn sc odom paths go2 gap = none
      ↔ ((0 < gap ∧ paths.turn_left = [])
          ∨ (¬ 0 < gap ∧ paths.turn_right = [])) := by
  unfold execute_turn
  split_ifs <;> simp_all

/-- C4 counterexample: an advisory snapshot offering the viable advance
path 3 — so the advance direction is not without viable paths — still makes
the advance-phase re-check abort the command, because the code tests
specifically for path id 4. -/
theorem c4_counterexample :
    adv3Paths.advance ≠ []
    ∧ (tick zeroSqrt (some stdOdom) adv3Paths idleGo2 c4St).2.2
        = TickOutcome.advanceBlockAbort
    ∧ (tick zeroSqrt (some stdOdom) adv3Paths idleGo2 c4St).1.pending_movements
        = [] := by
  refine ⟨by simp [adv3Paths], ?_, ?_⟩ <;>
    norm_num [tick, tickWithGoodData, tickMovePhase, stdOdom, adv3Paths,
      idleGo2, c4St, advCmd, initState, clean_abort, zeroSqrt, dist2,
      round2_eval, movement_attempt_limit]

/-- C4 (amended): during the advance phase (dx > 0), before any motion is
issued the command is aborted if and only if path id 4 (the straight-ahead
option) is missing from the advisory's advance list — the presence of other
viable advance options does not prevent the abort — and when the abort
fires the command leaves the queue with no actuator command emitted. -/
theorem c4_advance_abort_iff_no_path4 (sqrtQ : ℚ → ℚ) (odom : OdomSnapshot)
    (paths : PathsSnapshot) (go2 : Go2State) (st : ControllerState)
    (current : MoveCommand) (rest : List MoveCommand)
    (hq : st.pending_movements = current :: rest)
    (hx : odom.odom_x ≠ 0) (hs : odom.body_attitude = RobotState.standing)
    (ha : st.movement_attempts ≤ movement_attempt_limit)
    (ht : current.turn_complete = true) (hdx : 0 < current.dx) :
    ((tick sqrtQ (some odom) paths go2 st).2.2
        = TickOutcome.advanceBlockAbort ↔ ¬ (4 ∈ paths.advance))
    ∧ (¬ (4 ∈ paths.advance) →
        (tick sqrtQ (some odom) paths go2 st).1.pending_movements = rest
        ∧ (tick sqrtQ (some odom) paths go2 st).2.1 = []) := by
  rw [tick_to_good sqrtQ odom paths go2 st hx hs,
    tickWithGoodData_cons sqrtQ odom paths go2 st current rest hq ha,
    if_neg (by simp [ht])]
  simp only [tickMovePhase]
  rw [if_neg (ne_of_gt hdx)]
  by_cases hb : (4 : ℕ) ∈ paths.advance
  · rw [if_neg (by simp [hb]), if_neg (by simp [asymm hdx])]
    split_ifs <;> simp [hb]
  · rw [if_pos ⟨hdx, hb⟩]
    simp [clean_abort, hq, hb]

/-- C4 witness: the amended statement applied to the in-flight advance
command with path 4 present, showing the re-check does not abort. -/
theorem c4_witness :
    c4St.pending_movements = [advCmd]
    ∧ ((tick zeroSqrt (some stdOdom) openPaths idleGo2 c4St).2.2
        = TickOutcome.advanceBlockAbort ↔ ¬ (4 ∈ openPaths.advance)) :=
  ⟨rfl,
    (c4_advance_abort_iff_no_path4 zeroSqrt stdOdom openPaths idleGo2 c4St
      advCmd [] rfl (by norm_num [stdOdom]) rfl
      (by simp [c4St, initState, movement_attempt_limit]) rfl
      (by norm_num [advCmd])).1⟩

/-- C6: on any tick with valid pose data, if the advisory blocks the
in-flight command's required direction (the coarse-turn direction in the
turn phase, path 4 for advance or the retreat flag in the move phase, as
the code checks them) the command leaves the queue within that same tick,
whatever the attempt counter holds; and a tick whose advisory does not
block the required direction never ends in a block-abort. -/
theorem c6_block_abort_immediate (sqrtQ : ℚ → ℚ) (odom : OdomSnapshot)
    (paths : PathsSnapshot) (go2 : Go2State) (st : ControllerState)
    (current : MoveCommand) (rest : List MoveCommand)
    (hq : st.pending_movements = current :: rest)
    (hx : odom.odom_x ≠ 0) (hs : odom.body_attitude = RobotState.standing) :
    (requiredDirBlocked odom paths current →
      (tick sqrtQ (some odom) paths go2 st).1.pending_movements = rest)
    ∧ (¬ requiredDirBlocked odom paths current →
        (tick sqrtQ (some odom) paths go2 st).2.2 ≠ TickOutcome.turnBlockAbort
        ∧ (tick sqrtQ (some odom) paths go2 st).2.2
            ≠ TickOutcome.advanceBlockAbort
        ∧ (tick sqrtQ (some odom) paths go2 st).2.2
            ≠ TickOutcome.retreatBlockAbort) := by
  rw [tick_to_good sqrtQ odom paths go2 st hx hs]
  by_cases ha : st.movement_attempts ≤ movement_attempt_limit
  · rw [tickWithGoodData_cons sqrtQ odom paths go2 st current rest hq ha]
    by_cases ht : current.turn_complete = true
    · rw [if_neg (by simp [ht])]
      simp only [requiredDirBlocked, if_pos ht]
      simp only [tickMovePhase]
      constructor
      · rintro (⟨h1, h2⟩ | ⟨h1, h2⟩)
        · rw [if_neg (ne_of_gt h1), if_pos ⟨h1, h2⟩]
          simp [clean_abort, hq]
        · rw [if_neg (ne_of_lt h1),
            if_neg (by rintro ⟨hc, _⟩; exact absurd hc (by simp [asymm h1])),
            if_pos ⟨h1, h2⟩]
          simp [clean_abort, hq]
      · intro hnb
        split_ifs with h1 h2 h3 <;> simp_all
    · rw [if_pos (by simpa using ht)]
      simp only [requiredDirBlocked, if_neg ht]
      simp only [tickTurnPhase]
      constructor
      · rintro ⟨hgap, hdir⟩
        rw [if_pos hgap]
        rw [show execute_turn st.has_sport_client odom paths go2
            (calculate_angle_gap (-odom.odom_yaw_m180_p180) current.yaw)
            = none from (execute_turn_eq_none_iff _ _ _ _ _).mpr hdir]
        simp [clean_abort, hq]
      · intro hnb
        split_ifs with h1 h2 h3
        · cases he : execute_turn st.has_sport_client odom paths go2
            (calculate_angle_gap (-odom.odom_yaw_m180_p180) current.yaw) with
          | none =>
              exact absurd ⟨h1, (execute_turn_eq_none_iff _ _ _ _ _).mp he⟩ hnb
          | some cmds => simp
        all_goals simp
  · push_neg at ha
    rw [tickWithGoodData_timeout sqrtQ odom paths go2 st (by simp [hq]) ha]
    simp [clean_abort, hq]

/-- C6 witness: a blocked coarse right turn is aborted on the very tick it
is detected (attempt counter 0, far below the limit), and the same turn
under an open advisory is not block-aborted. -/
theorem c6_witness :
    (tick zeroSqrt (some stdOdom) blockedPaths idleGo2 c6St).1.pending_movements = []
    ∧ (tick zeroSqrt (some stdOdom) openPaths idleGo2 c6St).2.2
        ≠ TickOutcome.turnBlockAbort := by
  constructor
  · exact (c6_block_abort_immediate zeroSqrt stdOdom blockedPaths idleGo2
      c6St turnCmd [] rfl (by norm_num [stdOdom]) rfl).1
      (by norm_num [requiredDirBlocked, turnCmd, stdOdom, blockedPaths,
        calculate_angle_gap, round2_eval])
  · exact ((c6_block_abort_immediate zeroSqrt stdOdom openPaths idleGo2
      c6St turnCmd [] rfl (by norm_num [stdOdom]) rfl).2
      (by norm_num [requiredDirBlocked, turnCmd, stdOdom, openPaths,
        calculate_angle_gap, round2_eval])).1

/-- C1 counterexample: the in-flight retreat command (dx = −0.5) with
distance_traveled = 0.45: the claim's gap |dx| − distance_traveled rounds
to 0.05 ≤ tolerance, so per the claim the command should complete normally,
but the code's per-tick gap round(|dx − distance_traveled|, 2) is 0.95, the
tick keeps moving and the command stays queued. -/
theorem c1_counterexample :
    round2 (|backCmd.dx| - 9/20) ≤ distance_tolerance
    ∧ (tick c1Sqrt (some c1Odom) openPaths idleGo2 c1St).2.2
        ≠ TickOutcome.completed
    ∧ (tick c1Sqrt (some c1Odom) openPaths idleGo2 c1St).1.pending_movements
        = [backCmd]
    ∧ (tick c1Sqrt (some c1Odom) openPaths idleGo2 c1St).1.gap_previous
        = 19/20 := by
  refine ⟨?_, ?_, ?_, ?_⟩ <;>
    norm_num [tick, tickWithGoodData, tickMovePhase, c1Odom, c1Sqrt, c1St,
      backCmd, openPaths, idleGo2, initState, clean_abort, dist2,
      movement_attempt_limit, distance_tolerance, move_robot, round2_eval,
      show |(19 : ℚ)/20| = 19/20 by norm_num,
      show |-(1/2 : ℚ) - 9/20| = 19/20 by norm_num,
      show |(1 : ℚ)/2| = 1/2 by norm_num] <;>
    decide

/-- C1 (amended): in the move phase with dx ≠ 0 and the required direction
not blocked, the per-tick gap — stored in `gap_previous` — equals
|dx − distance_traveled| rounded to 2 decimals (not |dx| − distance_traveled);
the command completes normally exactly when that gap is within the distance
tolerance, and otherwise keeps moving; consequently a retreat command
(dx = −0.5) can never complete normally, its gap being at least 0.5. -/
theorem c1_phase2_gap_and_completion (sqrtQ : ℚ → ℚ) (odom : OdomSnapshot)
    (paths : PathsSnapshot) (go2 : Go2State) (st : ControllerState)
    (current : MoveCommand) (rest : List MoveCommand) (d gap : ℚ)
    (hq : st.pending_movements = current :: rest)
    (hx : odom.odom_x ≠ 0) (hs : odom.body_attitude = RobotState.standing)
    (ha : st.movement_attempts ≤ movement_attempt_limit)
    (ht : current.turn_complete = true) (hdx : current.dx ≠ 0)
    (hadv : 0 < current.dx → 4 ∈ paths.advance)
    (hret : current.dx < 0 → paths.retreat = true)
    (hd : d = sqrtQ (dist2 odom.odom_x odom.odom_y
        current.start_x current.start_y))
    (hgap : gap = round2 |current.dx - d|) :
    (tick sqrtQ (some odom) paths go2 st).1.gap_previous = gap
    ∧ (gap ≤ distance_tolerance →
        (tick sqrtQ (some odom) paths go2 st).2.2 = TickOutcome.completed
        ∧ (tick sqrtQ (some odom) paths go2 st).1.pending_movements = rest)
    ∧ (distance_tolerance < gap →
        (tick sqrtQ (some odom) paths go2 st).2.2 = TickOutcome.moving
        ∧ (tick sqrtQ (some odom) paths go2 st).1.pending_movements
            = current :: rest)
    ∧ (current.dx = -(1/2) → 0 ≤ d →
        (tick sqrtQ (some odom) paths go2 st).2.2 ≠ TickOutcome.completed) := by
  rw [tick_to_good sqrtQ odom paths go2 st hx hs,
    tickWithGoodData_cons sqrtQ odom paths go2 st current rest hq ha,
    if_neg (by simp [ht])]
  simp only [tickMovePhase]
  rw [if_neg hdx, ← hd, ← hgap]
  have hnb1 : ¬ (current.dx > 0 ∧ ¬ (4 ∈ paths.advance)) := by
    rintro ⟨h1, h2⟩
    exact h2 (hadv h1)
  have hnb2 : ¬ (current.dx < 0 ∧ paths.retreat = false) := by
    rintro ⟨h1, h2⟩
    rw [hret h1] at h2
    exact absurd h2 (by simp)
  rw [if_neg hnb1, if_neg hnb2]
  refine ⟨?_, ?_, ?_, ?_⟩
  · split_ifs <;> simp [clean_abort]
  · intro hle
    rw [if_neg (not_lt.mpr hle)]
    simp [clean_abort, hq]
  · intro h
    rw [if_pos h]
    split_ifs <;> simp [hq]
  · intro hneg hd0
    have habs : |current.dx - d| = 1/2 + d := by
      rw [hneg, abs_of_nonpos (by linarith)]
      ring
    have h12 : 1/2 ≤ gap := by
      rw [hgap, habs]
      exact round2_half_le (by linarith)
    have h20 : gap > distance_tolerance := by
      unfold distance_tolerance
      linarith
    rw [if_pos h20]
    split_ifs <;> simp

/-- C1 witness: the amended statement applied to an in-flight advance
command 0.4 m into a 0.5 m goal — the gap 0.1 exceeds the tolerance, so the
tick keeps moving and the command stays queued. -/
theorem c1_witness :
    distance_tolerance < 1/10
    ∧ (tick c5Sqrt (some c5Odom) openPaths idleGo2 c4St).2.2
        = TickOutcome.moving
    ∧ (tick c5Sqrt (some c5Odom) openPaths idleGo2 c4St).1.pending_movements
        = [advCmd] := by
  have h := c1_phase2_gap_and_completion c5Sqrt c5Odom openPaths idleGo2
    c4St advCmd [] (2/5) (1/10) rfl (by norm_num [c5Odom]) rfl
    (by simp [c4St, initState, movement_attempt_limit]) rfl
    (by norm_num [advCmd])
    (fun _ => by simp [openPaths])
    (fun hc => absurd hc (by norm_num [advCmd]))
    (by norm_num [c5Sqrt, c5Odom, advCmd, dist2])
    (by norm_num [advCmd, round2_eval, show |(1:ℚ)/2 - 2/5| = 1/10 by norm_num,
      show |(1:ℚ)/10| = 1/10 by norm_num])
  have hlt : distance_tolerance < (1:ℚ)/10 := by norm_num [distance_tolerance]
  exact ⟨hlt, (h.2.2.1 hlt).1, (h.2.2.1 hlt).2⟩

theorem c5_step_eq (n : ℕ) (g : ℚ) (hn : n ≤ 15) :
    c5Step (c5State n g) = c5State (n + 1) (1/10) := by
  unfold c5Step tick
  norm_num [c5Odom, c5State, advCmd, openPaths, idleGo2, c5Sqrt,
    tickWithGoodData, tickMovePhase, dist2, movement_attempt_limit,
    distance_tolerance, move_robot, clean_abort, round2_eval]
  rw [if_neg (by omega : ¬ (15:ℕ) < n)]
  norm_num [show |(1:ℚ)/10| = 1/10 by norm_num,
    show |(1:ℚ)/2| = 1/2 by norm_num]

theorem c5_iterate (n : ℕ) (hn : n ≤ 16) :
    c5Step^[n] (c5State 0 0)
      = if n = 0 then c5State 0 0 else c5State n (1/10) := by
  induction n with
  | zero => simp
  | succ m ih =>
    rw [Function.iterate_succ_apply', ih (by omega)]
    by_cases h0 : m = 0
    · subst h0
      simpa using c5_step_eq 0 0 (by norm_num)
    · rw [if_neg h0, if_neg (Nat.succ_ne_zero m)]
      exact c5_step_eq m (1/10) (by omega)

/-- C5: in the stalled-advance scenario (dx = 0.5, distance stuck at 0.4,
limit 15) the command survives ticks 1 through 16, the attempt counter
reading exactly n after n ticks; the 17th tick — entered with the counter at
16, one past the limit — aborts via the convergence timeout, emptying the
queue and resetting the counter to 0. -/
theorem c5_timeout_at_attempt_16 :
    (∀ n : Fin 17,
      (c5Step^[n.val] (c5State 0 0)).pending_movements = [advCmd]
      ∧ (c5Step^[n.val] (c5State 0 0)).movement_attempts = n.val)
    ∧ (tick c5Sqrt (some c5Odom) openPaths idleGo2
        (c5Step^[16] (c5State 0 0))).2.2 = TickOutcome.timeoutAbort
    ∧ (c5Step^[17] (c5State 0 0)).pending_movements = []
    ∧ (c5Step^[17] (c5State 0 0)).movement_attempts = 0 := by
  have h16 : c5Step^[16] (c5State 0 0) = c5State 16 (1/10) := by
    rw [c5_iterate 16 (by norm_num)]
    norm_num
  have htm : tick c5Sqrt (some c5Odom) openPaths idleGo2 (c5State 16 (1/10))
      = (clean_abort (c5State 16 (1/10)), [], TickOutcome.timeoutAbort) := by
    rw [tick_to_good c5Sqrt c5Odom openPaths idleGo2 _
        (by norm_num [c5Odom]) rfl,
      tickWithGoodData_timeout c5Sqrt c5Odom openPaths idleGo2 _
        (by simp [c5State])
        (by norm_num [c5State, movement_attempt_limit])]
  refine ⟨?_, ?_, ?_, ?_⟩
  · intro n
    rw [c5_iterate n.val (by omega)]
    by_cases h0 : n.val = 0
    · rw [if_pos h0, h0]
      simp [c5State]
    · rw [if_neg h0]
      simp [c5State]
  · rw [h16, htm]
  · rw [show (17 : ℕ) = 16 + 1 from rfl, Function.iterate_succ_apply', h16]
    show (tick c5Sqrt (some c5Odom) openPaths idleGo2
      (c5State 16 (1/10))).1.pending_movements = []
    rw [htm]
    simp [clean_abort, c5State]
  · rw [show (17 : ℕ) = 16 + 1 from rfl, Function.iterate_succ_apply', h16]
    show (tick c5Sqrt (some c5Odom) openPaths idleGo2
      (c5State 16 (1/10))).1.movement_attempts = 0
    rw [htm]
    simp [clean_abort]

end Go2Advance
